import Mathlib

/-!
Shallow embedding of the agent orchestration core of the AI chat-based task
manager backend (files `app/tools.py`, `app/agent.py`, `app/main.py`).

Modelling conventions:
* The SQLAlchemy record store is a `Store`: a list of tasks in insertion
  order, an autoincrement counter starting at 1, and a logical clock standing
  in for `func.now()` timestamps.  A commit that changes a row bumps the
  clock; error paths return the store unchanged, which models the
  commit-or-rollback transaction semantics of each tool (the source commits
  only on the success path; early error returns reach `db.close()` without a
  commit, discarding the session's in-memory attribute changes).
* Python truthiness of optional arguments (`if title_match:` etc.) is modelled
  by `truthyStr` / `truthyInt` (None, "" and 0 are falsy).
* `ilike "%pat%"` is modelled as case-insensitive substring matching
  (`containsChars`), and `.first()` as the first match in insertion order,
  which is the row order SQLite returns for an unordered query.
* `datetime.strptime(s, "%Y-%m-%d")` is modelled by `parseDate`: three
  dash-separated digit groups with calendar validation (leap years included).
* Dict results of the tools are `ToolResponse` records whose `Option` fields
  model key presence.  String contents of `ToolMessage`s stand in for
  Python's `str(dict)` rendering; no claim depends on their exact text.
-/

namespace TaskApp

inductive TaskStatus where
  | todo
  | in_progress
  | done
  | cancelled
deriving DecidableEq

def TaskStatus.value : TaskStatus → String
  | .todo => "todo"
  | .in_progress => "in_progress"
  | .done => "done"
  | .cancelled => "cancelled"

inductive TaskPriority where
  | low
  | medium
  | high
  | urgent
deriving DecidableEq

def TaskPriority.value : TaskPriority → String
  | .low => "low"
  | .medium => "medium"
  | .high => "high"
  | .urgent => "urgent"

/-- Character-wise upper-casing (`str.upper()`; the enum names involved are
ASCII, where this agrees with Python). -/
def upStr (s : String) : String := String.mk (s.data.map Char.toUpper)

/-- Character-wise lower-casing, used to model case-insensitive `ilike`. -/
def lowStr (s : String) : String := String.mk (s.data.map Char.toLower)

/-- Python `TaskStatus[name.upper()]` (enum name lookup). -/
def parseStatusName (s : String) : Option TaskStatus :=
  match upStr s with
  | "TODO" => some .todo
  | "IN_PROGRESS" => some .in_progress
  | "DONE" => some .done
  | "CANCELLED" => some .cancelled
  | _ => Option.none

/-- Python `TaskPriority[name.upper()]` (enum name lookup). -/
def parsePriorityName (s : String) : Option TaskPriority :=
  match upStr s with
  | "LOW" => some .low
  | "MEDIUM" => some .medium
  | "HIGH" => some .high
  | "URGENT" => some .urgent
  | _ => Option.none

/-- Rendering of Python `list(TaskStatus)` inside the error f-strings. -/
def statusListRepr : String :=
  "[<TaskStatus.TODO: \x27todo\x27>, <TaskStatus.IN_PROGRESS: \x27in_progress\x27>, <TaskStatus.DONE: \x27done\x27>, <TaskStatus.CANCELLED: \x27cancelled\x27>]"

/-- Rendering of Python `list(TaskPriority)` inside the error f-strings. -/
def priorityListRepr : String :=
  "[<TaskPriority.LOW: \x27low\x27>, <TaskPriority.MEDIUM: \x27medium\x27>, <TaskPriority.HIGH: \x27high\x27>, <TaskPriority.URGENT: \x27urgent\x27>]"

structure Date where
  year : Nat
  month : Nat
  day : Nat
deriving DecidableEq

def isLeap (y : Nat) : Bool :=
  (y % 4 = 0 && y % 100 ≠ 0) || y % 400 = 0

def daysInMonth (y m : Nat) : Nat :=
  if m = 2 then (if isLeap y then 29 else 28)
  else if m = 4 || m = 6 || m = 9 || m = 11 then 30
  else 31

def digitsOnly (l : List Char) : Bool :=
  !l.isEmpty && l.all Char.isDigit

def digitsVal (l : List Char) : Nat :=
  l.foldl (fun n c => n * 10 + (c.toNat - 48)) 0

/-- Splitting a character sequence at dashes (`str.split` on "-"). -/
def splitDash : List Char → List (List Char)
  | [] => [[]]
  | c :: rest =>
    let r := splitDash rest
    if c = '-' then [] :: r
    else
      match r with
      | [] => [[c]]
      | g :: gs => (c :: g) :: gs

/-- Model of `datetime.strptime(s, "%Y-%m-%d")`: succeeds exactly on
dash-separated digit groups forming a valid calendar date. -/
def parseDate (s : String) : Option Date :=
  match splitDash s.data with
  | [ys, ms, ds] =>
    if digitsOnly ys && digitsOnly ms && digitsOnly ds && ys.length ≤ 4 then
      let y := digitsVal ys
      let m := digitsVal ms
      let d := digitsVal ds
      if 1 ≤ m && m ≤ 12 && 1 ≤ d && d ≤ daysInMonth y m then
        some ⟨y, m, d⟩
      else Option.none
    else Option.none
  | _ => Option.none

/-- Date comparison used by the SQL `<=` filter on `due_date`. -/
def dateLE (a b : Date) : Bool :=
  a.year < b.year ||
    (a.year = b.year &&
      (a.month < b.month || (a.month = b.month && a.day ≤ b.day)))

structure Task where
  id : Nat
  title : String
  description : Option String
  status : TaskStatus
  due_date : Option Date
  priority : TaskPriority
  created_at : Nat
  updated_at : Nat
deriving DecidableEq

structure Store where
  tasks : List Task
  nextId : Nat
  clock : Nat
deriving DecidableEq

def initStore : Store := { tasks := [], nextId := 1, clock := 0 }

/-- Dict results of the tools: `status` is always present, the other keys
are present when the corresponding `Option` is `some`. -/
structure ToolResponse where
  status : String
  message : Option String
  task : Option Task
  tasks : Option (List Task)
deriving DecidableEq

def errResp (m : String) : ToolResponse :=
  { status := "error", message := some m, task := Option.none, tasks := Option.none }

def okMsgResp (m : String) : ToolResponse :=
  { status := "success", message := some m, task := Option.none, tasks := Option.none }

def okTaskResp (m : String) (t : Task) : ToolResponse :=
  { status := "success", message := some m, task := some t, tasks := Option.none }

def okListResp (l : List Task) : ToolResponse :=
  { status := "success", message := Option.none, task := Option.none, tasks := some l }

/-- Python truthiness of an optional string (None and "" are falsy). -/
def truthyStr : Option String → Bool
  | Option.none => false
  | some s => s ≠ ""

/-- Python truthiness of an optional integer (None and 0 are falsy). -/
def truthyInt : Option Int → Bool
  | Option.none => false
  | some i => i ≠ 0

def startsWithChars : List Char → List Char → Bool
  | [], _ => true
  | _ :: _, [] => false
  | a :: as, b :: bs => a = b && startsWithChars as bs

def containsChars (pat : List Char) : List Char → Bool
  | [] => pat.isEmpty
  | c :: rest => startsWithChars pat (c :: rest) || containsChars pat rest

/-- Model of `Task.title.ilike(f"%pat%")`: case-insensitive substring match. -/
def titleMatches (title pat : String) : Bool :=
  containsChars (lowStr pat).data (lowStr title).data

/-- Selector resolution shared by `update_task` and `delete_task`:
`if task_id: ... elif title_match: ...` with `.first()` as first match in
insertion order. -/
def resolveTask (db : Store) (task_id : Option Int) (title_match : Option String) : Option Task :=
  if truthyInt task_id then
    db.tasks.find? (fun t => (t.id : Int) = task_id.getD 0)
  else if truthyStr title_match then
    db.tasks.find? (fun t => titleMatches t.title (title_match.getD ""))
  else
    Option.none

/-- Rendering of the Python expression `{task_id or title_match}` inside the
not-found f-string. -/
def selStr (task_id : Option Int) (title_match : Option String) : String :=
  if truthyInt task_id then toString (task_id.getD 0)
  else
    match title_match with
    | some s => s
    | Option.none => "None"

/-- The `due_date` validation block of `create_task`. -/
def parseDueArg (due_date : Option String) : Except ToolResponse (Option Date) :=
  if truthyStr due_date then
    match parseDate (due_date.getD "") with
    | some d => .ok (some d)
    | Option.none => .error (errResp "Invalid due_date format. Use YYYY-MM-DD.")
  else .ok Option.none

/-- The `priority` validation block of `create_task` (defaults to MEDIUM). -/
def parsePriorityArg (priority : Option String) : Except ToolResponse TaskPriority :=
  if truthyStr priority then
    match parsePriorityName (priority.getD "") with
    | some p => .ok p
    | Option.none =>
      .error (errResp ("Invalid priority: " ++ priority.getD "" ++
        ". Must be one of " ++ priorityListRepr ++ "."))
  else .ok .medium

/-- Embedding of `tools.create_task`. -/
def create_task (db : Store) (title : String)
    (description due_date priority : Option String) : Store × ToolResponse :=
  match parseDueArg due_date with
  | .error e => (db, e)
  | .ok parsed_due_date =>
    match parsePriorityArg priority with
    | .error e => (db, e)
    | .ok parsed_priority =>
      let new_task : Task :=
        { id := db.nextId, title := title, description := description,
          status := .todo, due_date := parsed_due_date,
          priority := parsed_priority,
          created_at := db.clock, updated_at := db.clock }
      ({ tasks := db.tasks ++ [new_task], nextId := db.nextId + 1,
         clock := db.clock + 1 },
       okTaskResp ("Task \x27" ++ title ++ "\x27 created successfully with ID " ++
         toString new_task.id ++ ".") new_task)

/-- The in-memory attribute assignments of `update_task`, in source order,
with the early error returns of the invalid-value checks.  The candidate
task is threaded through; nothing reaches the store until the commit in
`update_task` itself. -/
def applyUpdates (t : Task)
    (new_title new_description new_status new_due_date new_priority : Option String) :
    Except ToolResponse Task := do
  let t := if truthyStr new_title then { t with title := new_title.getD "" } else t
  let t := if truthyStr new_description then { t with description := new_description } else t
  let t ←
    if truthyStr new_status then
      match parseStatusName (new_status.getD "") with
      | some st => pure { t with status := st }
      | Option.none =>
        throw (errResp ("Invalid status: " ++ new_status.getD "" ++
          ". Must be one of " ++ statusListRepr ++ "."))
    else pure t
  let t ←
    if truthyStr new_due_date then
      match parseDate (new_due_date.getD "") with
      | some d => pure { t with due_date := some d }
      | Option.none => throw (errResp "Invalid new_due_date format. Use YYYY-MM-DD.")
    else pure t
  let t ←
    if truthyStr new_priority then
      match parsePriorityName (new_priority.getD "") with
      | some p => pure { t with priority := p }
      | Option.none =>
        throw (errResp ("Invalid new_priority: " ++ new_priority.getD "" ++
          ". Must be one of " ++ priorityListRepr ++ "."))
    else pure t
  pure t

/-- Embedding of `tools.update_task`.  The commit persists the changed row
and its `onupdate` timestamp together; when no attribute actually changed the
flush issues no UPDATE, leaving the store untouched. -/
def update_task (db : Store) (task_id : Option Int)
    (title_match new_title new_description new_status new_due_date new_priority :
      Option String) : Store × ToolResponse :=
  match resolveTask db task_id title_match with
  | Option.none =>
    (db, errResp ("Task not found with ID " ++ selStr task_id title_match ++ "."))
  | some t0 =>
    match applyUpdates t0 new_title new_description new_status new_due_date new_priority with
    | .error e => (db, e)
    | .ok t1 =>
      if t1 = t0 then
        (db, okTaskResp ("Task \x27" ++ t1.title ++ "\x27 updated successfully.") t1)
      else
        let t2 := { t1 with updated_at := db.clock }
        ({ db with
            tasks := db.tasks.map (fun u => if u.id = t0.id then t2 else u),
            clock := db.clock + 1 },
         okTaskResp ("Task \x27" ++ t2.title ++ "\x27 updated successfully.") t2)

/-- Embedding of `tools.delete_task`. -/
def delete_task (db : Store) (task_id : Option Int) (title_match : Option String) :
    Store × ToolResponse :=
  match resolveTask db task_id title_match with
  | Option.none =>
    (db, errResp ("Task not found with ID " ++ selStr task_id title_match ++ "."))
  | some t =>
    ({ db with
        tasks := db.tasks.filter (fun u => u.id ≠ t.id),
        clock := db.clock + 1 },
     okMsgResp ("Task \x27" ++ t.title ++ "\x27 (ID: " ++ toString t.id ++
       ") deleted successfully."))

/-- Tasks in `created_at` descending order: the reverse of insertion order,
since the clock is strictly increasing across creations. -/
def tasksDesc (db : Store) : List Task := db.tasks.reverse

/-- Embedding of `tools.list_tasks`. -/
def list_tasks (db : Store) : Store × ToolResponse :=
  (db, okListResp (tasksDesc db))

/-- Embedding of `tools.filter_tasks`. -/
def filter_tasks (db : Store)
    (status priority due_date_before due_date_after : Option String) :
    Store × ToolResponse :=
  let stF : Except ToolResponse (Task → Bool) :=
    if truthyStr status then
      match parseStatusName (status.getD "") with
      | some st => .ok (fun t => t.status = st)
      | Option.none =>
        .error (errResp ("Invalid status for filter: " ++ status.getD "" ++
          ". Must be one of " ++ statusListRepr ++ "."))
    else .ok (fun _ => true)
  match stF with
  | .error e => (db, e)
  | .ok pSt =>
    let prF : Except ToolResponse (Task → Bool) :=
      if truthyStr priority then
        match parsePriorityName (priority.getD "") with
        | some p => .ok (fun t => t.priority = p)
        | Option.none =>
          .error (errResp ("Invalid priority for filter: " ++ priority.getD "" ++
            ". Must be one of " ++ priorityListRepr ++ "."))
      else .ok (fun _ => true)
    match prF with
    | .error e => (db, e)
    | .ok pPr =>
      let befF : Except ToolResponse (Task → Bool) :=
        if truthyStr due_date_before then
          match parseDate (due_date_before.getD "") with
          | some d =>
            .ok (fun t => match t.due_date with
              | some dd => dateLE dd d
              | Option.none => false)
          | Option.none =>
            .error (errResp "Invalid due_date_before format. Use YYYY-MM-DD.")
        else .ok (fun _ => true)
      match befF with
      | .error e => (db, e)
      | .ok pBef =>
        let aftF : Except ToolResponse (Task → Bool) :=
          if truthyStr due_date_after then
            match parseDate (due_date_after.getD "") with
            | some d =>
              .ok (fun t => match t.due_date with
                | some dd => dateLE d dd
                | Option.none => false)
            | Option.none =>
              .error (errResp "Invalid due_date_after format. Use YYYY-MM-DD.")
          else .ok (fun _ => true)
        match aftF with
        | .error e => (db, e)
        | .ok pAft =>
          (db, okListResp
            ((db.tasks.filter (fun t => pSt t && pPr t && pBef t && pAft t)).reverse))

/-- Argument mapping of a tool call, modelled by the union of the keyword
parameters accepted by the five tools (absent keys are `none`).  Keys outside
a tool's signature would hit the `TypeError` branch of the executor's
`except`; no claim depends on that path and it is not modelled. -/
structure Args where
  title : Option String
  description : Option String
  due_date : Option String
  priority : Option String
  task_id : Option Int
  title_match : Option String
  new_title : Option String
  new_description : Option String
  new_status : Option String
  new_due_date : Option String
  new_priority : Option String
  status : Option String
  due_date_before : Option String
  due_date_after : Option String
deriving DecidableEq

def noArgs : Args :=
  ⟨Option.none, Option.none, Option.none, Option.none, Option.none, Option.none,
   Option.none, Option.none, Option.none, Option.none, Option.none, Option.none,
   Option.none, Option.none⟩

/-- A Python value returned through `execute_tool`: either one of the tools'
dict results, the raw database session object returned by
`get_db_session_for_tool`, or the result of calling some other attribute
imported into the `app.tools` module (not modelled further — those calls
touch no task record). -/
inductive PyResult where
  | dict (r : ToolResponse)
  | sessionObj
  | foreign (name : String)
deriving DecidableEq

def isFailureDict : PyResult → Bool
  | .dict r => r.status = "error"
  | _ => false

/-- The five registered tools (`tools_list` in `agent.py`), by name. -/
def tools_list : List String :=
  ["create_task", "update_task", "delete_task", "list_tasks", "filter_tasks"]

/-- Attributes imported into `app.tools` (its `import` lines); calling one is
modelled opaquely since it performs no task-store operation. -/
def importedAttrs : List String :=
  ["Session", "Task", "TaskStatus", "TaskPriority", "datetime",
   "Optional", "List", "Dict", "Union", "or_"]

/-- Attributes of the `app.tools` module reachable by
`getattr(tools, name)`: the six functions it defines plus its imports.
Module metadata attributes (`__name__`, ...) are not callable as tools and
are not modelled; for them only the text of the resulting failure message
would differ. -/
def moduleAttrs : List String :=
  "get_db_session_for_tool" :: tools_list ++ importedAttrs

/-- Embedding of `agent.execute_tool`: resolves `name` by `getattr` over the
whole `tools` module, calls it with the argument mapping, and converts any
raised exception into an error dict.  It is a total function: no exception
escapes. -/
def execute_tool (db : Store) (name : String) (args : Args) : Store × PyResult :=
  if name = "create_task" then
    match args.title with
    | some t =>
      let (db2, r) := create_task db t args.description args.due_date args.priority
      (db2, .dict r)
    | Option.none =>
      (db, .dict (errResp
        "Tool execution failed: create_task() missing 1 required positional argument: \x27title\x27"))
  else if name = "update_task" then
    let (db2, r) := update_task db args.task_id args.title_match args.new_title
      args.new_description args.new_status args.new_due_date args.new_priority
    (db2, .dict r)
  else if name = "delete_task" then
    let (db2, r) := delete_task db args.task_id args.title_match
    (db2, .dict r)
  else if name = "list_tasks" then
    let (db2, r) := list_tasks db
    (db2, .dict r)
  else if name = "filter_tasks" then
    let (db2, r) := filter_tasks db args.status args.priority
      args.due_date_before args.due_date_after
    (db2, .dict r)
  else if name = "get_db_session_for_tool" then
    if args = noArgs then (db, .sessionObj)
    else
      (db, .dict (errResp
        "Tool execution failed: get_db_session_for_tool() got an unexpected keyword argument"))
  else if name ∈ importedAttrs then
    (db, .foreign name)
  else
    (db, .dict (errResp
      ("Tool execution failed: module \x27app.tools\x27 has no attribute \x27" ++
        name ++ "\x27")))

/-- Structural stand-in for Python `str()` of a tool response value, used
only as the `content` of ToolMessages; no claim depends on its exact text. -/
def pyStr : PyResult → String
  | .dict r =>
    "\x7b\x27status\x27: \x27" ++ r.status ++ "\x27" ++
      (match r.message with
       | some m => ", \x27message\x27: \x27" ++ m ++ "\x27"
       | Option.none => "") ++
      (match r.task with
       | some t => ", \x27task\x27: \x7b\x27id\x27: " ++ toString t.id ++
           ", \x27title\x27: \x27" ++ t.title ++ "\x27\x7d"
       | Option.none => "") ++
      (match r.tasks with
       | some l => ", \x27tasks\x27: [" ++ toString l.length ++ " tasks]"
       | Option.none => "") ++ "\x7d"
  | .sessionObj => "<sqlalchemy.orm.session.Session object>"
  | .foreign n => "<result of app.tools." ++ n ++ ">"

structure ToolCall where
  name : String
  args : Args
  id : String
deriving DecidableEq

/-- Conversation messages (`HumanMessage` / `AIMessage` / `ToolMessage`). -/
inductive Message where
  | user (content : String)
  | ai (content : String) (tool_calls : List ToolCall)
  | tool (content : String) (tool_call_id : String)
deriving DecidableEq

/-- The tool-call id carried by a ToolResultMessage, `none` for the other
message kinds. -/
def toolIdOf : Message → Option String
  | .tool _ i => some i
  | _ => Option.none

structure OutcomeEntry where
  tool_name : String
  response : PyResult
deriving DecidableEq

/-- The `agent_outcome` field: `None`, a direct text answer, or the list of
per-tool result records produced by the Tool node. -/
inductive Outcome where
  | none
  | text (s : String)
  | results (l : List OutcomeEntry)
deriving DecidableEq

structure AgentState where
  input : String
  chat_history : List Message
  agent_outcome : Outcome
  tool_calls : List ToolCall
  tasks_updated : Bool
deriving DecidableEq

/-- A model invocation result: free text together with the (possibly empty)
list of requested tool calls. -/
structure ModelResponse where
  content : String
  tool_calls : List ToolCall
deriving DecidableEq

/-- The duplicate-submission guard of `call_model`: the utterance is skipped
exactly when the history's last message is an identical HumanMessage. -/
def lastIsSameUser (msgs : List Message) (input : String) : Bool :=
  match msgs.getLast? with
  | some (.user c) => c = input
  | _ => false

/-- Embedding of `agent.call_model`, applied to one model response. -/
def call_model (resp : ModelResponse) (s : AgentState) : AgentState :=
  let messages :=
    if lastIsSameUser s.chat_history s.input then s.chat_history
    else s.chat_history ++ [Message.user s.input]
  if resp.tool_calls.isEmpty then
    { s with
        agent_outcome := .text resp.content,
        tool_calls := [],
        chat_history := messages ++ [Message.ai resp.content []] }
  else
    { s with
        agent_outcome := .none,
        tool_calls := resp.tool_calls,
        chat_history := messages ++ [Message.ai resp.content resp.tool_calls] }

/-- The loop body of `agent.call_tool`: executes the calls in order,
threading the store, and produces the appended ToolMessages, the outcome
entries and the batch's `tasks_updated` flag. -/
def mutatingName (n : String) : Bool :=
  n = "create_task" || n = "update_task" || n = "delete_task"

def call_tool_go (db : Store) : List ToolCall →
    Store × List Message × List OutcomeEntry × Bool
  | [] => (db, [], [], false)
  | tc :: rest =>
    let er := execute_tool db tc.name tc.args
    let k := call_tool_go er.1 rest
    (k.1, Message.tool (pyStr er.2) tc.id :: k.2.1, ⟨tc.name, er.2⟩ :: k.2.2.1,
      mutatingName tc.name || k.2.2.2)

/-- Embedding of `agent.call_tool` (the Tool node). -/
def call_tool (db : Store) (s : AgentState) : Store × AgentState :=
  let (db2, msgs, entries, upd) := call_tool_go db s.tool_calls
  (db2,
   { s with
      agent_outcome := .results entries,
      tasks_updated := upd,
      chat_history := s.chat_history ++ msgs })

/-- One scripted model invocation: either the external capability faults
(`ModelInvocationError`) or it returns a response. -/
inductive ModelStep where
  | fault
  | reply (r : ModelResponse)
deriving DecidableEq

/-- The compiled workflow (`model` entry point, conditional edge to `tool`
or END, unconditional edge `tool -> model`), run against a script of model
invocation results; exhausting the script is also a model fault.  Returns
the store alongside the turn result: tool side effects before a fault are
not rolled back, while on the happy path the final agent state is
produced. -/
def runTurn : List ModelStep → AgentState → Store → Store × Except Unit AgentState
  | [], _, db => (db, .error ())
  | ModelStep.fault :: _, _, db => (db, .error ())
  | ModelStep.reply r :: rest, s, db =>
    let s1 := call_model r s
    if s1.tool_calls.isEmpty then (db, .ok s1)
    else
      let (db1, s2) := call_tool db s1
      runTurn rest s2 db1

/-- Embedding of `TaskAgent.process_input`: builds the initial state, runs
the graph, and commits the resulting chat history to the session only when
the turn completed; a fault leaves the stored history untouched and
propagates. -/
def process_input (hist : List Message) (db : Store) (script : List ModelStep)
    (input : String) : List Message × Store × Except Unit AgentState :=
  let s0 : AgentState :=
    { input := input, chat_history := hist, agent_outcome := .none,
      tool_calls := [], tasks_updated := false }
  match runTurn script s0 db with
  | (db2, .error e) => (hist, db2, .error e)
  | (db2, .ok s) => (s.chat_history, db2, .ok s)

/-- Embedding of `TaskAgent.get_final_response`.  Reading `.get` on a
non-dict response would raise in Python; that is modelled by `Except`. -/
def get_final_response (o : Outcome) : Except Unit String :=
  match o with
  | .text s => .ok s
  | .results l => do
    let msgs ← l.mapM (fun (e : OutcomeEntry) =>
      match e.response with
      | .dict r =>
        if r.status = "success" then Except.ok (r.message.getD "Success")
        else Except.ok (r.message.getD "Error")
      | _ => (Except.error () : Except Unit String))
    pure (String.intercalate "\n" msgs)
  | .none => .ok "Task completed successfully."

/-- Per-item lines of the websocket rendering of a tool-outcome list
(`main.py`, the `chat_message` handler): a feedback line for every entry
and, for a successful entry carrying a task record, a task-summary line.
A non-dict response raises (`Except.error`), caught by the endpoint's outer
handler. -/
def wsItemLines (e : OutcomeEntry) : Except Unit (List String) :=
  match e.response with
  | .dict r =>
    let status_msg := r.status
    let message_msg := r.message.getD "No specific message."
    let feedback := "Tool \x27" ++ e.tool_name ++ "\x27 executed: Status: " ++
      status_msg ++ ", Message: " ++ message_msg
    match r.task with
    | some t =>
      if status_msg = "success" then
        let base := "Task details: Title: " ++ t.title ++ ", Status: " ++
          t.status.value ++ ", Priority: " ++ t.priority.value
        Except.ok [feedback,
          if t.id ≠ 0 then base ++ ", ID: " ++ toString t.id else base]
      else Except.ok [feedback]
    | Option.none => Except.ok [feedback]
  | _ => Except.error ()

/-- The websocket handler's rendering of a structured tool-outcome list:
all per-item lines in order, joined with newlines. -/
def wsRender (l : List OutcomeEntry) : Except Unit String := do
  let ls ← l.mapM wsItemLines
  pure (String.intercalate "\n" ls.flatten)

def isDictResp : PyResult → Bool
  | .dict _ => true
  | _ => false

/-- Modelled from the spec: the lines renderFinalText contributes for one
tool outcome — for any result a line naming the tool, its status and its
message, and for a Success result carrying a record additionally a one-line
summary of the record with title, status, priority and the id when
present. -/
def renderFinalTextSpecLines (e : OutcomeEntry) : List String :=
  match e.response with
  | .dict r =>
    ("Tool \x27" ++ e.tool_name ++ "\x27 executed: Status: " ++ r.status ++
      ", Message: " ++ r.message.getD "No specific message.") ::
    (match r.task with
     | some t =>
       if r.status = "success" then
         [if t.id ≠ 0 then
            "Task details: Title: " ++ t.title ++ ", Status: " ++
              t.status.value ++ ", Priority: " ++ t.priority.value ++
              ", ID: " ++ toString t.id
          else
            "Task details: Title: " ++ t.title ++ ", Status: " ++
              t.status.value ++ ", Priority: " ++ t.priority.value]
       else []
     | Option.none => [])
  | _ => []

/-- A store holding one task titled "Gym session", used as a concrete
input. -/
def gymStore : Store :=
  (create_task initStore "Gym session" Option.none Option.none Option.none).1

/-- A concrete update call targeting the nonexistent task id 999. -/
def updCall999 : ToolCall :=
  { name := "update_task",
    args := { noArgs with task_id := some 999, new_status := some "done" },
    id := "call_1" }

/-- A scripted turn: the model requests the failing update, then answers
with text. -/
def scriptC3 : List ModelStep :=
  [ModelStep.reply { content := "", tool_calls := [updCall999] },
   ModelStep.reply { content := "Task 999 was not found.", tool_calls := [] }]

/-- A scripted turn in which the model answers directly with text. -/
def scriptDirect : List ModelStep :=
  [ModelStep.reply { content := "hi", tool_calls := [] }]

/-- A concrete tool-outcome list: one Success carrying a record, one
Failure. -/
def demoEntries : List OutcomeEntry :=
  [⟨"create_task", PyResult.dict (okTaskResp "made it"
      { id := 1, title := "Buy milk", description := Option.none,
        status := TaskStatus.todo, due_date := Option.none,
        priority := TaskPriority.medium, created_at := 0, updated_at := 0 })⟩,
   ⟨"update_task", PyResult.dict (errResp "Task not found with ID 999.")⟩]

theorem call_tool_go_ids (tcs : List ToolCall) : ∀ db : Store,
    ((call_tool_go db tcs).2.1).map toolIdOf = tcs.map (fun tc => some tc.id) := by
  induction tcs with
  | nil => intro db; rfl
  | cons tc rest ih => intro db; simp [call_tool_go, toolIdOf, ih]

theorem call_tool_go_flag (tcs : List ToolCall) : ∀ db : Store,
    (call_tool_go db tcs).2.2.2 = tcs.any (fun tc => mutatingName tc.name) := by
  induction tcs with
  | nil => intro db; rfl
  | cons tc rest ih => intro db; simp [call_tool_go, ih]

/-- C1: one Tool-state step appends, after the untouched prior history,
exactly one ToolResultMessage per pending tool call, in the order the calls
were received, each carrying the id of its corresponding call (the map over
`toolIdOf` pins the count, the order, the ids, and that every appended
message is a ToolResultMessage). -/
theorem tool_node_appends_one_result_per_call_in_order (db : Store) (s : AgentState) :
    ((call_tool db s).2.chat_history.take s.chat_history.length = s.chat_history) ∧
    ((call_tool db s).2.chat_history.map toolIdOf =
      s.chat_history.map toolIdOf ++ s.tool_calls.map (fun tc => some tc.id)) := by
  constructor
  · simp [call_tool, List.take_left]
  · simp [call_tool, call_tool_go_ids]

/-- C3 (amended): after a Tool-state step, the per-turn `tasks_updated` flag
is true iff at least one call of that batch names create_task, update_task
or delete_task — irrespective of whether the call succeeded. -/
theorem tool_node_flag_tracks_mutating_names (db : Store) (s : AgentState) :
    (call_tool db s).2.tasks_updated =
      s.tool_calls.any (fun tc => mutatingName tc.name) := by
  simp [call_tool, call_tool_go_flag]

/-- C4 (amended): the Model-state step appends the user utterance exactly
when the history's last message is not an identical UserMessage, and then
appends the model reply; the guard is per model invocation, not across
submissions. -/
theorem user_message_appended_unless_last_identical (resp : ModelResponse) (s : AgentState) :
    (call_model resp s).chat_history =
      (if lastIsSameUser s.chat_history s.input then s.chat_history
       else s.chat_history ++ [Message.user s.input]) ++
      [Message.ai resp.content resp.tool_calls] := by
  rcases h : resp.tool_calls with _ | ⟨a, b⟩ <;> simp [call_model, h]

/-- C10: for a result whose agent_outcome is neither a direct text answer
nor a tool-result list — in the state type, the `None` outcome — the
Session Facade's get_final_response returns the fixed non-null string. -/
theorem final_response_fallback_text (o : Outcome)
    (h1 : ∀ s, o ≠ Outcome.text s) (h2 : ∀ l, o ≠ Outcome.results l) :
    get_final_response o = Except.ok "Task completed successfully." := by
  cases o with
  | none => rfl
  | text s => exact absurd rfl (h1 s)
  | results l => exact absurd rfl (h2 l)

theorem final_response_fallback_text_witness :
    get_final_response Outcome.none = Except.ok "Task completed successfully." :=
  final_response_fallback_text Outcome.none
    (fun _ h => Outcome.noConfusion h) (fun _ h => Outcome.noConfusion h)

/-- C5: when the model invocation faults during a turn, the fault
propagates out of the loop as the `Except.error` result of process_input,
and the session's stored chat history is exactly the pre-turn history — no
partial history is committed, so it remains valid for retry. -/
theorem model_fault_leaves_history_untouched (hist : List Message) (db : Store)
    (script : List ModelStep) (input : String)
    (h : (process_input hist db script input).2.2 = Except.error ()) :
    (process_input hist db script input).1 = hist := by
  unfold process_input at h ⊢
  rcases hr : runTurn script
      { input := input, chat_history := hist, agent_outcome := .none,
        tool_calls := [], tasks_updated := false } db with ⟨db2, res⟩
  cases res <;> simp [hr] at h ⊢

theorem model_fault_leaves_history_untouched_witness :
    (process_input [Message.user "seed"] initStore [ModelStep.fault] "hello").2.2 =
      Except.error () ∧
    (process_input [Message.user "seed"] initStore [ModelStep.fault] "hello").1 =
      [Message.user "seed"] :=
  ⟨rfl, model_fault_leaves_history_untouched _ _ _ _ rfl⟩

/-- C6: when the selector of an update or delete call resolves no record,
the result is a Failure whose message is "Task not found with ID s." where
s renders the Python expression `task_id or title_match`; and for a truthy
title selector the resolution is the first task, in store order, whose title
contains the pattern case-insensitively. -/
theorem selector_miss_yields_not_found_failure (db : Store) (tid : Option Int)
    (tm nt nd ns ndd np : Option String)
    (h : resolveTask db tid tm = Option.none) :
    ((update_task db tid tm nt nd ns ndd np).2 =
      errResp ("Task not found with ID " ++ selStr tid tm ++ ".")) ∧
    ((delete_task db tid tm).2 =
      errResp ("Task not found with ID " ++ selStr tid tm ++ ".")) ∧
    (truthyInt tid = false → truthyStr tm = true →
      resolveTask db tid tm =
        db.tasks.find? (fun t => titleMatches t.title (tm.getD ""))) := by
  refine ⟨?_, ?_, ?_⟩
  · unfold update_task; rw [h]
  · unfold delete_task; rw [h]
  · intro h1 h2; unfold resolveTask; rw [if_neg, if_pos h2]
    simp [h1]

theorem selector_miss_yields_not_found_failure_witness :
    ((update_task gymStore (some 999) Option.none Option.none Option.none
        (some "done") Option.none Option.none).2 =
      errResp "Task not found with ID 999.") ∧
    ((delete_task gymStore (some 999) Option.none).2 =
      errResp "Task not found with ID 999.") := by
  have h := selector_miss_yields_not_found_failure gymStore (some 999)
    Option.none Option.none Option.none (some "done") Option.none Option.none
    (by decide)
  exact ⟨h.1, h.2.1⟩

/-- C7 (counterexample): a create call with a valid title and no due date
but with a priority argument yields a task whose priority is the given one,
not medium — refuting the claim as stated, which quantifies over all create
calls with a valid title and no due date. -/
theorem create_priority_arg_overrides_medium :
    ((create_task initStore "gym" Option.none Option.none (some "high")).2.status
      = "success") ∧
    ((create_task initStore "gym" Option.none Option.none (some "high")).2.task.map
        Task.priority = some TaskPriority.high) ∧
    TaskPriority.high ≠ TaskPriority.medium := by
  refine ⟨by decide, by decide, by decide⟩

/-- C7 (amended): for all create calls with a valid title, no due date and
no (truthy) priority argument, the resulting task has priority medium and
status todo. -/
theorem create_defaults_medium_todo (db : Store) (title : String)
    (descr prio : Option String) (h : truthyStr prio = false) :
    ((create_task db title descr Option.none prio).2.status = "success") ∧
    ((create_task db title descr Option.none prio).2.task.map Task.priority =
      some TaskPriority.medium) ∧
    ((create_task db title descr Option.none prio).2.task.map Task.status =
      some TaskStatus.todo) := by
  have hp : parsePriorityArg prio = Except.ok TaskPriority.medium := by
    unfold parsePriorityArg
    rw [if_neg]
    simp [h]
  have hd : parseDueArg Option.none = Except.ok Option.none := rfl
  unfold create_task
  rw [hd, hp]
  simp [okTaskResp]

theorem create_defaults_medium_todo_witness :
    ((create_task initStore "buy milk" Option.none Option.none Option.none).2.task.map
      Task.priority = some TaskPriority.medium) ∧
    ((create_task initStore "buy milk" Option.none Option.none Option.none).2.task.map
      Task.status = some TaskStatus.todo) :=
  ⟨(create_defaults_medium_todo initStore "buy milk" Option.none Option.none rfl).2.1,
   (create_defaults_medium_todo initStore "buy milk" Option.none Option.none rfl).2.2⟩

/-- C8: whenever a create or update call returns a Failure — in particular
for an invalid priority, status or date format — the store is left exactly
as it was: create persists no record, and update persists none of the
requested field changes, including those applied to the in-memory candidate
before the invalid value was detected (the commit only happens on the
success path). -/
theorem invalid_value_failure_leaves_store_unchanged (db : Store) (title : String)
    (d dd p : Option String) (tid : Option Int)
    (tm nt ndesc ns ndd np : Option String) :
    ((create_task db title d dd p).2.status = "error" →
      (create_task db title d dd p).1 = db) ∧
    ((update_task db tid tm nt ndesc ns ndd np).2.status = "error" →
      (update_task db tid tm nt ndesc ns ndd np).1 = db) := by
  constructor
  · intro h
    unfold create_task at h ⊢
    split at h
    all_goals try split at h
    all_goals simp_all [okTaskResp]
  · intro h
    unfold update_task at h ⊢
    split at h
    all_goals try split at h
    all_goals try split at h
    all_goals simp_all [okTaskResp]

theorem invalid_value_failure_leaves_store_unchanged_witness :
    ((create_task initStore "x" Option.none Option.none (some "urgentt")).1 =
      initStore) ∧
    ((update_task gymStore Option.none (some "GYM") (some "Renamed") Option.none
        (some "donee") Option.none Option.none).1 = gymStore) :=
  ⟨(invalid_value_failure_leaves_store_unchanged initStore "x" Option.none
      Option.none (some "urgentt") Option.none Option.none Option.none
      Option.none Option.none Option.none Option.none).1 (by decide),
   (invalid_value_failure_leaves_store_unchanged gymStore "x" Option.none
      Option.none Option.none Option.none (some "GYM") (some "Renamed")
      Option.none (some "donee") Option.none Option.none).2 (by decide)⟩

/-- C2 (counterexample): "get_db_session_for_tool" is not one of the five
registered tools, yet execute does not return a Failure for it — getattr
resolves it over the whole tools module and calling it returns the raw
database session object, which is not a Failure ToolResult. -/
theorem execute_nonregistered_module_attr_not_failure :
    "get_db_session_for_tool" ∉ tools_list ∧
    (execute_tool initStore "get_db_session_for_tool" noArgs).2 =
      PyResult.sessionObj ∧
    isFailureDict PyResult.sessionObj = false := by
  refine ⟨by decide, by decide, rfl⟩

/-- C2 (amended): execute never raises past the executor boundary (it is
total into result values), and for every name that resolves to no attribute
of the tools module it returns the Failure built from the AttributeError;
a non-registered name that is a module attribute is instead invoked via
getattr and need not produce a Failure. -/
theorem execute_unknown_name_returns_failure (db : Store) (name : String)
    (args : Args) (h : name ∉ moduleAttrs) :
    execute_tool db name args =
      (db, PyResult.dict (errResp
        ("Tool execution failed: module \x27app.tools\x27 has no attribute \x27" ++
          name ++ "\x27"))) := by
  have h1 : ¬(name = "create_task") := fun e => h (by rw [e]; decide)
  have h2 : ¬(name = "update_task") := fun e => h (by rw [e]; decide)
  have h3 : ¬(name = "delete_task") := fun e => h (by rw [e]; decide)
  have h4 : ¬(name = "list_tasks") := fun e => h (by rw [e]; decide)
  have h5 : ¬(name = "filter_tasks") := fun e => h (by rw [e]; decide)
  have h6 : ¬(name = "get_db_session_for_tool") := fun e => h (by rw [e]; decide)
  have h7 : ¬(name ∈ importedAttrs) := fun hm => h (by simp [moduleAttrs, hm])
  unfold execute_tool
  rw [if_neg h1, if_neg h2, if_neg h3, if_neg h4, if_neg h5, if_neg h6, if_neg h7]

theorem execute_unknown_name_returns_failure_witness :
    execute_tool initStore "frobnicate" noArgs =
      (initStore, PyResult.dict (errResp
        ("Tool execution failed: module \x27app.tools\x27 has no attribute \x27" ++
          "frobnicate" ++ "\x27"))) :=
  execute_unknown_name_returns_failure initStore "frobnicate" noArgs (by decide)

/-- C3 (counterexample): a turn whose only tool call is an update_task that
fails (no task 999 exists in the empty store) still ends with
tasks_updated = true, while the store is unchanged and the recorded tool
result is the not-found Failure — refuting the claim that the flag is true
only if at least one create/update/delete succeeded. -/
theorem flag_true_without_successful_mutation :
    ((process_input [] initStore scriptC3 "mark task 999 done").2.2.toOption.map
      AgentState.tasks_updated = some true) ∧
    ((process_input [] initStore scriptC3 "mark task 999 done").2.1 = initStore) ∧
    (Message.tool (pyStr (PyResult.dict (errResp "Task not found with ID 999.")))
      "call_1" ∈ (process_input [] initStore scriptC3 "mark task 999 done").1) := by
  refine ⟨by decide, by decide, by decide⟩

/-- C4 (counterexample): submitting the same text "hello" twice in
immediate succession as the first messages of a session leaves two
UserMessages with that text in the stored history — the second submission
is appended again because the history then ends with the model's reply —
refuting the claim that only one UserMessage entry is appended. -/
theorem duplicate_submission_appends_twice :
    ((process_input
        (process_input [] initStore scriptDirect "hello").1
        (process_input [] initStore scriptDirect "hello").2.1
        scriptDirect "hello").1.countP
      (fun m => m = Message.user "hello")) = 2 := by decide

theorem wsItemLines_dict (e : OutcomeEntry) (h : isDictResp e.response = true) :
    wsItemLines e = Except.ok (renderFinalTextSpecLines e) := by
  rcases e with ⟨n, r⟩
  cases r with
  | dict d =>
    unfold wsItemLines renderFinalTextSpecLines
    rcases d with ⟨st, msg, task, tasks⟩
    rcases task with _ | t
    · rfl
    · by_cases hs : st = "success" <;> simp [hs]
  | sessionObj => simp [isDictResp] at h
  | foreign n2 => simp [isDictResp] at h

theorem mapM_wsItemLines_all_dict : ∀ l : List OutcomeEntry,
    (∀ e ∈ l, isDictResp e.response = true) →
    l.mapM wsItemLines = Except.ok (l.map renderFinalTextSpecLines) := by
  intro l
  induction l with
  | nil => intro _; rfl
  | cons e rest ih =>
    intro h
    rw [List.mapM_cons, wsItemLines_dict e (h e (List.mem_cons_self e rest)),
      ih (fun x hx => h x (List.mem_cons_of_mem e hx))]
    rfl

/-- C9: applied to a structured tool-outcome list (all responses dicts),
the rendering produces for each result, in order, a "Tool executed" line
naming the tool and carrying its message, plus — for a Success result
carrying a task record — a one-line summary of the record
(title/status/priority, and the id when present), all joined by
newlines. -/
theorem ws_render_matches_spec_lines (l : List OutcomeEntry)
    (h : ∀ e ∈ l, isDictResp e.response = true) :
    wsRender l =
      Except.ok (String.intercalate "\n"
        (l.map renderFinalTextSpecLines).flatten) := by
  unfold wsRender
  rw [mapM_wsItemLines_all_dict l h]
  rfl

theorem ws_render_matches_spec_lines_witness :
    wsRender demoEntries =
      Except.ok (String.intercalate "\n"
        (demoEntries.map renderFinalTextSpecLines).flatten) :=
  ws_render_matches_spec_lines demoEntries (by decide)

end TaskApp
